import Mathlib

/-!
Verification of `src/course-scheduler-web/public/main.py`.

The file defines two functions: `greet`, a pure string formatter, and
`get_initial_courses`, which prints one diagnostic line and returns a
hardcoded two-element list of course dictionaries.  We embed them as Lean
functions; the `print` side effect of `get_initial_courses` is made explicit
as a list of emitted messages paired with the return value, and `greet`,
which contains no output statement, gets the analogous traced form with an
empty message list.  Python floats `3.0` and `1.0` are exact and carried as
rationals; Python ints as `Int`.
-/

/-- Course record: one dictionary of the literal list in
`get_initial_courses` (fields `id`, `subject`, `subject_title`,
`credited_units`). -/
structure Course where
  id : Int
  subject : String
  subject_title : String
  credited_units : Rat
deriving DecidableEq, Repr

/-- Embedding of `greet(name)`: the f-string
`f"Hello, {name}, from Python!"`, i.e. the fixed head, the name verbatim,
and the fixed tail, concatenated. -/
def greet (name : String) : String :=
  "Hello, " ++ name ++ ", from Python!"

/-- Traced form of `greet`: the body of `greet` contains no print
statement, so its emitted-message trace is empty. -/
def greetT (name : String) : String × List String :=
  (greet name, [])

/-- Embedding of `get_initial_courses()`: second component is the trace of
messages printed during the call (one `print`), first component the
returned list of two course records, as in the source literal. -/
def get_initial_courses (_ : Unit) : List Course × List String :=
  ([{ id := 1, subject := "TEST101", subject_title := "Introduction to Testing",
      credited_units := 3 },
    { id := 2, subject := "PYD200", subject_title := "Pyodide Basics",
      credited_units := 1 }],
   ["Python: get_initial_courses called"])

/-- C1: every call of `get_initial_courses` returns the same fixed ordered
list: two records, the first with id 1, subject "TEST101", credited units
3.0, the second with id 2, subject "PYD200", credited units 1.0; results of
any two calls are equal in content and order. -/
theorem get_initial_courses_fixed :
    (∀ u v : Unit, (get_initial_courses u).1 = (get_initial_courses v).1) ∧
    (get_initial_courses ()).1 =
      [{ id := 1, subject := "TEST101",
         subject_title := "Introduction to Testing", credited_units := 3 },
       { id := 2, subject := "PYD200", subject_title := "Pyodide Basics",
         credited_units := 1 }] := by
  constructor
  · intro u v; rfl
  · rfl

/-- C2: `greet "Ada"` is exactly `"Hello, Ada, from Python!"`. -/
theorem greet_ada : greet "Ada" = "Hello, Ada, from Python!" := by
  decide

/-- C3: for every input string, the output of `greet` contains the input
verbatim as a contiguous substring and is non-empty. -/
theorem greet_contains_name (name : String) :
    (∃ l r : List Char, (greet name).data = l ++ name.data ++ r) ∧
    greet name ≠ "" := by
  constructor
  · exact ⟨"Hello, ".data, ", from Python!".data, by
      simp [greet, String.data_append]⟩
  · intro h
    have hd := congrArg String.data h
    simp [greet, String.data_append] at hd

/-- C4: neither function fails: on every input, each returns normally with
a value (the embeddings are total and always produce a result, with no
error outcome in either function). -/
theorem no_failure_modes :
    (∀ name : String, ∃ out : String × List String, greetT name = out) ∧
    (∀ u : Unit, ∃ out : List Course × List String,
      get_initial_courses u = out) := by
  exact ⟨fun name => ⟨greetT name, rfl⟩, fun u => ⟨get_initial_courses u, rfl⟩⟩

/-- C5: `greet` has no side effect beyond its return value: its emitted
message trace is empty on every input. -/
theorem greet_no_side_effects (name : String) : (greetT name).2 = [] := rfl

/-- C6: every invocation of `get_initial_courses` emits exactly one
diagnostic message to the output trace, the fixed print line. -/
theorem get_initial_courses_one_message (u : Unit) :
    (get_initial_courses u).2 = ["Python: get_initial_courses called"] ∧
    (get_initial_courses u).2.length = 1 := ⟨rfl, rfl⟩

/-- C7: the `id` fields of the records returned by every call of
`get_initial_courses` are integers 1 and 2 and are pairwise distinct. -/
theorem get_initial_courses_ids_distinct (u : Unit) :
    ((get_initial_courses u).1.map Course.id) = [1, 2] ∧
    ((get_initial_courses u).1.map Course.id).Nodup := by
  cases u
  refine ⟨rfl, ?_⟩
  decide

/-- C8: both functions terminate: for every input each has a uniquely
determined result value, computed with no recursion or blocking (they are
total functions in the embedding). -/
theorem both_functions_total :
    (∀ name : String, ∃! r : String, greet name = r) ∧
    (∀ u : Unit, ∃! r : List Course × List String,
      get_initial_courses u = r) := by
  constructor
  · exact fun name => ⟨greet name, rfl, fun y hy => hy.symm⟩
  · exact fun u => ⟨get_initial_courses u, rfl, fun y hy => hy.symm⟩

/-- C9: for every input string, `greet name` is exactly the concatenation
of the fixed head `"Hello, "`, the name, and the fixed tail
`", from Python!"`. -/
theorem greet_shape (name : String) :
    (greet name).data = "Hello, ".data ++ name.data ++ ", from Python!".data := by
  simp [greet, String.data_append]

/-- C10: `greet` is injective: distinct input names give distinct
greetings. -/
theorem greet_injective (n1 n2 : String) (h : n1 ≠ n2) :
    greet n1 ≠ greet n2 := by
  intro he
  apply h
  have hd : (greet n1).data = (greet n2).data := congrArg String.data he
  simp [greet, String.data_append] at hd
  exact String.ext hd

/-- C10 witness: the injectivity theorem at the concrete distinct inputs
"Ada" and "Bob". -/
theorem greet_injective_witness : greet "Ada" ≠ greet "Bob" :=
  greet_injective "Ada" "Bob" (by decide)
